import Mathlib

/-!
Verification of the sham-truck-backend negotiation engine and notification
ledger against its natural-language specification.

The embedding models the Express/Mongoose controllers of the repository as
pure state-transformer functions over an explicit `Store` (the MongoDB
collections).  Mongo documents become Lean structures; `ObjectId`s become
`Nat` keys assigned from a fresh-id counter; each controller becomes a
function `Store → … → Res × Store` that performs exactly the sequence of
queries and writes the source performs, in source order.

The repository contains two parallel variants of several controllers
(separated in the source dump by document separators): a legacy variant and
a validated variant with role checks and input validation.  Where a claim's
cited lines span both, both are embedded (the legacy one with a `Legacy`
suffix).  The spec's glossary notes that the router role is spelled
`'user'` in the legacy variant; both spellings are embedded as `Role.router`.
The token-issuing endpoints (`AuthController` sign-up/login, all variants)
only ever sign role `'router'`/`'user'` or `'driver'`, so the embedded
`Role` type has exactly those two inhabitants.
-/

namespace ShamTruck

/-- The `Offer.status` enum of `models/Offer.ts`:
`'Accepted' | 'Rejected' | 'Pending' | 'Expired'`. -/
inductive OfferStatus where
  | accepted
  | rejected
  | pending
  | expired
deriving DecidableEq, Repr

/-- The `Order.status` enum of `models/Order.ts`:
`'Active' | 'Ended' | 'Pending' | 'Offered'`. -/
inductive OrderStatus where
  | active
  | ended
  | pending
  | offered
deriving DecidableEq, Repr

/-- The `Notification.type` enum of `models/Notification.ts`.  The legacy
`createOffer` also writes type `'offer_created'` (an acknowledgement to the
bidding driver), which the schema enum does not list but the spec treats as
the optional driver acknowledgement of SubmitOffer. -/
inductive NotifType where
  | new_offer
  | offer_created
  | offer_accepted
  | offer_rejected
  | order_created
  | order_updated
  | order_completed
  | ring
  | new_order_available
deriving DecidableEq, Repr

/-- Caller roles carried by the JWT.  `router` is spelled `'router'` by the
validated `AuthController` and `'user'` by the legacy one; no other role is
ever signed into a token. -/
inductive Role where
  | router
  | driver
deriving DecidableEq, Repr

/-- The authenticated caller (`req.user` after the `authenticate`
middleware), mirroring `JwtPayload` of `types/index.ts`. -/
structure AuthUser where
  id : Nat
  role : Role
  fullName : String
deriving DecidableEq, Repr

/-- An `Order` document (`models/Order.ts`).  Fields not read by any
embedded controller path (`weight_or_volume`, `date_time_transport`,
`loading_time`, `notes`, `type`, timestamps, `offered_drivers`) are omitted;
no claim mentions them. -/
structure OrderDoc where
  id : Nat
  customer_id : Nat
  from_location : String
  to_location : String
  vehicle_type : Nat
  status : OrderStatus
deriving DecidableEq, Repr

/-- An `Offer` document (`models/Offer.ts`). -/
structure OfferDoc where
  id : Nat
  order_id : Nat
  driver_id : Nat
  price : Int
  notes : String
  status : OfferStatus
deriving DecidableEq, Repr

/-- A `Notification` document (`models/Notification.ts`): `user_id`,
`driver_id` and `order_id` are optional references. -/
structure NotifDoc where
  id : Nat
  user_id : Option Nat
  driver_id : Option Nat
  order_id : Option Nat
  type : NotifType
  title : String
  message : String
  is_read : Bool
deriving DecidableEq, Repr

/-- A `Vehicle` document (vehicle type / category, `models/Vehicle.ts`). -/
structure VehicleDoc where
  id : Nat
  category : String
deriving DecidableEq, Repr

/-- A `Driver` document (`models/Driver.ts`); `vehicleType` is a reference
to a `Vehicle`. -/
structure DriverDoc where
  id : Nat
  fullName : String
  vehicleType : Nat
deriving DecidableEq, Repr

/-- The MongoDB collections together with a fresh-id counter standing for
ObjectId generation. -/
structure Store where
  orders : List OrderDoc
  offers : List OfferDoc
  notifications : List NotifDoc
  drivers : List DriverDoc
  vehicles : List VehicleDoc
  nextId : Nat
deriving Repr

/-- Outcome of a controller call, abstracting the HTTP response per the
spec's error taxonomy (§6/§7): 404 → `notFound`, duplicate-offer 400 →
`conflict`, wrong-lifecycle 400 → `invalidState`, role 403 → `forbidden`,
validation 400 → `invalidArgument`, uncaught exception 500 →
`serverError`, 2xx → `success`. -/
inductive Res where
  | success
  | notFound
  | conflict
  | invalidState
  | forbidden
  | invalidArgument
  | serverError
deriving DecidableEq, Repr

/-- Models `Order.findById(id)`. -/
def findOrder (s : Store) (i : Nat) : Option OrderDoc :=
  s.orders.find? (fun o => o.id == i)

/-- Models `Order.findOne({ _id: id, customer_id: owner })`. -/
def findOrderOwned (s : Store) (i owner : Nat) : Option OrderDoc :=
  s.orders.find? (fun o => o.id == i && o.customer_id == owner)

/-- Models `Offer.findById(id)`. -/
def findOffer (s : Store) (i : Nat) : Option OfferDoc :=
  s.offers.find? (fun f => f.id == i)

/-- Models `Offer.findOne({ order_id, driver_id })`. -/
def findOfferPair (s : Store) (orderId driverId : Nat) : Option OfferDoc :=
  s.offers.find? (fun f => f.order_id == orderId && f.driver_id == driverId)

/-- Models `Offer.findOne({ order_id, status: 'Accepted' })`. -/
def findAcceptedOffer (s : Store) (orderId : Nat) : Option OfferDoc :=
  s.offers.find? (fun f => f.order_id == orderId && f.status == OfferStatus.accepted)

/-- Models `Notification.findById(id)`. -/
def findNotif (s : Store) (i : Nat) : Option NotifDoc :=
  s.notifications.find? (fun n => n.id == i)

/-- Models `Driver.findById(id)` (also the result of populating a `driver_id`
reference: a dangling reference populates to `null`, i.e. `none`). -/
def findDriver (s : Store) (i : Nat) : Option DriverDoc :=
  s.drivers.find? (fun d => d.id == i)

/-- Models `Vehicle.findById(id)` (also `VehicleType.findById`). -/
def findVehicle (s : Store) (i : Nat) : Option VehicleDoc :=
  s.vehicles.find? (fun v => v.id == i)

/-- Models `offer.save()` after `offer.status = st`, and
`Offer.findByIdAndUpdate(id, { status: st })`: rewrite the status of the
offer with the given id. -/
def setOfferStatus (l : List OfferDoc) (i : Nat) (st : OfferStatus) : List OfferDoc :=
  l.map fun f => if f.id == i then { f with status := st } else f

/-- Models `Offer.updateMany({ order_id, _id: { $ne: keep } }, { status: 'Rejected' })`:
reject every sibling offer of the same order. -/
def rejectSiblings (l : List OfferDoc) (orderId keep : Nat) : List OfferDoc :=
  l.map fun f =>
    if f.order_id == orderId && f.id != keep then { f with status := OfferStatus.rejected } else f

/-- Models `Order.findByIdAndUpdate(id, { status: st })`. -/
def setOrderStatus (l : List OrderDoc) (i : Nat) (st : OrderStatus) : List OrderDoc :=
  l.map fun o => if o.id == i then { o with status := st } else o

/-- Data for one `Notification.create` / element of `insertMany`; the id is
assigned from the store counter on insertion. -/
structure NotifData where
  user_id : Option Nat
  driver_id : Option Nat
  order_id : Option Nat
  type : NotifType
  title : String
  message : String
deriving Repr

def NotifData.toDoc (d : NotifData) (i : Nat) : NotifDoc :=
  { id := i, user_id := d.user_id, driver_id := d.driver_id, order_id := d.order_id,
    type := d.type, title := d.title, message := d.message, is_read := false }

/-- Models `Notification.create(data)` (all embedded call sites create the
document unread). -/
def addNotif (s : Store) (d : NotifData) : Store :=
  { s with
    notifications := s.notifications ++ [d.toDoc s.nextId]
    nextId := s.nextId + 1 }

/-- Build the documents of a `Notification.insertMany`, assigning
consecutive fresh ids. -/
def mkNotifDocs : Nat → List NotifData → List NotifDoc
  | _, [] => []
  | i, d :: ds => d.toDoc i :: mkNotifDocs (i + 1) ds

/-- Models `Notification.insertMany(ds)`. -/
def addNotifs (s : Store) (ds : List NotifData) : Store :=
  { s with
    notifications := s.notifications ++ mkNotifDocs s.nextId ds
    nextId := s.nextId + ds.length }

/-!
## Negotiation engine operations

Each controller is embedded as a function performing the same reads and
writes as the source, in the source's order.  Socket emissions
(`io.to(...).emit(...)`) are fire-and-forget deliveries with no effect on
the store and are not modelled, except that dereferencing a field of a
reference that populated to `null` throws, which the embeddings model as
`serverError` at the exact program point of the dereference.
-/

/-- Whether a driver's populated `vehicleType` has the given category
(`populate({ match: { category } })` leaves `null` when the vehicle is
absent or its category differs). -/
def driverMatchesCategory (s : Store) (cat : String) (d : DriverDoc) : Bool :=
  match findVehicle s d.vehicleType with
  | some v => v.category == cat
  | none => false

/-- The driver × vehicle-category join of `createOrder`:
`Driver.find().populate({ path: 'vehicleType', match: { category } })`
followed by filtering out drivers whose `vehicleType` populated to `null`. -/
def matchingDrivers (s : Store) (cat : String) : List DriverDoc :=
  s.drivers.filter (driverMatchesCategory s cat)

/-- The `new_order_available` notification written for one matching driver
in `createOrder`. -/
def newOrderAvailableData (orderId : Nat) (from_location to_location : String)
    (d : DriverDoc) : NotifData :=
  { user_id := none, driver_id := some d.id, order_id := some orderId,
    type := NotifType.new_order_available, title := "New Order Available",
    message := "A new order matching your vehicle category is available: "
      ++ from_location ++ " to " ++ to_location }

/-- Models `createOrder` of the validated `OrderController` (role check, vehicle
category fan-out).  The express-validator checks on the omitted free-text
fields (`weight_or_volume`, `loading_time`, …) are elided; the
vehicle-reference check is the `Vehicle.findById` 400 branch.  The driver
join reads the `drivers`/`vehicles` collections, which the preceding
order/notification inserts leave untouched, so it is taken over `s`. -/
def createOrder (s : Store) (caller : AuthUser) (vehicle_type : Nat)
    (from_location to_location : String) : Res × Store :=
  if caller.role != Role.router then (Res.forbidden, s)
  else
    match findVehicle s vehicle_type with
    | none => (Res.invalidArgument, s)
    | some vt =>
      let order : OrderDoc :=
        { id := s.nextId, customer_id := caller.id, from_location, to_location,
          vehicle_type, status := OrderStatus.pending }
      let s1 : Store := { s with orders := s.orders ++ [order], nextId := s.nextId + 1 }
      let s2 := addNotif s1
        { user_id := some caller.id, driver_id := none, order_id := some order.id,
          type := NotifType.order_created, title := "Order Created",
          message := "Your order has been created successfully" }
      let s3 := addNotifs s2 ((matchingDrivers s vt.category).map
        (newOrderAvailableData order.id from_location to_location))
      (Res.success, s3)

/-- Models `createOffer` of the validated `OfferController` (price validation, role
check, duplicate-pair check, two notifications). -/
def createOffer (s : Store) (caller : AuthUser) (order_id : Nat) (price : Int)
    (notes : String) : Res × Store :=
  if price < 0 then (Res.invalidArgument, s)
  else if caller.role != Role.driver then (Res.forbidden, s)
  else
    match findOrder s order_id with
    | none => (Res.notFound, s)
    | some order =>
      match findOfferPair s order_id caller.id with
      | some _ => (Res.conflict, s)
      | none =>
        let offer : OfferDoc :=
          { id := s.nextId, order_id, driver_id := caller.id, price, notes,
            status := OfferStatus.pending }
        let s1 : Store := { s with offers := s.offers ++ [offer], nextId := s.nextId + 1 }
        let s2 := addNotif s1
          { user_id := some order.customer_id, driver_id := none, order_id := some order_id,
            type := NotifType.new_offer, title := "تم استلام عرض جديد",
            message := "لقد تلقيت عرضًا جديدًا بقيمة " ++ toString price ++ " دولار لطلبك" }
        let s3 := addNotif s2
          { user_id := none, driver_id := some caller.id, order_id := some order_id,
            type := NotifType.offer_created, title := "تم تقديم العرض",
            message := "تم تقديم عرضك بنجاح" }
        (Res.success, s3)

/-- Models `createOffer` of the legacy `OfferController` (no role or price check;
same order/duplicate checks; single notification to the order's router). -/
def createOfferLegacy (s : Store) (caller : AuthUser) (order_id : Nat) (price : Int)
    (notes : String) : Res × Store :=
  match findOrder s order_id with
  | none => (Res.notFound, s)
  | some order =>
    match findOfferPair s order_id caller.id with
    | some _ => (Res.conflict, s)
    | none =>
      let offer : OfferDoc :=
        { id := s.nextId, order_id, driver_id := caller.id, price, notes,
          status := OfferStatus.pending }
      let s1 : Store := { s with offers := s.offers ++ [offer], nextId := s.nextId + 1 }
      let s2 := addNotif s1
        { user_id := some order.customer_id, driver_id := some caller.id,
          order_id := some order_id, type := NotifType.new_offer,
          title := "💰 New Offer Received",
          message := caller.fullName ++ " made an offer on your order" }
      (Res.success, s2)

/-- Models `acceptOffer` of the validated `OfferController`: role check, offer
lookup, ownership check, Pending check, then accept + reject siblings +
activate order, notification to the accepted driver and one per rejected
sibling (siblings re-read after the reject write). -/
def acceptOffer (s : Store) (caller : AuthUser) (offerId : Nat) : Res × Store :=
  if caller.role != Role.router then (Res.forbidden, s)
  else
    match findOffer s offerId with
    | none => (Res.notFound, s)
    | some offer =>
      match findOrderOwned s offer.order_id caller.id with
      | none => (Res.notFound, s)
      | some _ =>
        if offer.status != OfferStatus.pending then (Res.invalidState, s)
        else
          let s1 : Store := { s with offers := setOfferStatus s.offers offerId OfferStatus.accepted }
          let s2 : Store := { s1 with offers := rejectSiblings s1.offers offer.order_id offerId }
          let s3 : Store := { s2 with orders := setOrderStatus s2.orders offer.order_id OrderStatus.active }
          let s4 := addNotif s3
            { user_id := none, driver_id := some offer.driver_id,
              order_id := some offer.order_id, type := NotifType.offer_accepted,
              title := "تم قبول العرض", message := "تم قبول عرضك!" }
          let rejected := s4.offers.filter fun f =>
            f.order_id == offer.order_id && f.id != offerId
          let s5 := addNotifs s4 (rejected.map fun rf =>
            { user_id := none, driver_id := some rf.driver_id,
              order_id := some offer.order_id, type := NotifType.offer_rejected,
              title := "لم يتم اختيار العرض", message := "لم يتم اختيار عرضك لهذا الطلب" })
          (Res.success, s5)

/-- Models `acceptOffer` of the legacy `OfferController`: no role, ownership or
Pending check.  The offer is saved as Accepted first; the subsequent
dereferences of the populated `order_id`/`driver_id` throw (→ 500) if the
reference is dangling, at the program points marked below. -/
def acceptOfferLegacy (s : Store) (caller : AuthUser) (offerId : Nat) : Res × Store :=
  match findOffer s offerId with
  | none => (Res.notFound, s)
  | some offer =>
    let s1 : Store := { s with offers := setOfferStatus s.offers offerId OfferStatus.accepted }
    match findOrder s offer.order_id with
    | none => (Res.serverError, s1)
    | some _ =>
      let s2 : Store := { s1 with orders := setOrderStatus s1.orders offer.order_id OrderStatus.active }
      let s3 : Store := { s2 with offers := rejectSiblings s2.offers offer.order_id offerId }
      match findDriver s offer.driver_id with
      | none => (Res.serverError, s3)
      | some _ =>
        let s4 := addNotif s3
          { user_id := none, driver_id := some offer.driver_id,
            order_id := some offer.order_id, type := NotifType.offer_accepted,
            title := "✅ Offer Accepted",
            message := caller.fullName ++ " accepted your offer" }
        (Res.success, s4)

/-- Models `rejectOffer` of the legacy `OfferController`:
`Offer.findByIdAndUpdate(id, { status: 'Rejected' })` with no check of the
current status, then a notification to the offer's driver. -/
def rejectOffer (s : Store) (caller : AuthUser) (offerId : Nat) : Res × Store :=
  match findOffer s offerId with
  | none => (Res.notFound, s)
  | some offer =>
    let s1 : Store := { s with offers := setOfferStatus s.offers offerId OfferStatus.rejected }
    match findDriver s offer.driver_id with
    | none => (Res.serverError, s1)
    | some _ =>
      match findOrder s offer.order_id with
      | none => (Res.serverError, s1)
      | some _ =>
        let s2 := addNotif s1
          { user_id := none, driver_id := some offer.driver_id,
            order_id := some offer.order_id, type := NotifType.offer_rejected,
            title := "❌ Offer Rejected",
            message := caller.fullName ++ " rejected your offer" }
        (Res.success, s2)

/-- Models `sendRing` of `RingController`: a driver rings the order's router; a
router (role spelled `'user'` there) rings the driver holding the Accepted
offer, failing with 400 when none exists.  Order and offer collections are
never written. -/
def sendRing (s : Store) (caller : AuthUser) (order_id : Nat) (message : String) :
    Res × Store :=
  match findOrder s order_id with
  | none => (Res.notFound, s)
  | some order =>
    match caller.role with
    | Role.driver =>
      let s1 := addNotif s
        { user_id := some order.customer_id, driver_id := some caller.id,
          order_id := some order.id, type := NotifType.ring,
          title := "🔔 Ring from Driver", message := message }
      (Res.success, s1)
    | Role.router =>
      match findAcceptedOffer s order_id with
      | none => (Res.invalidState, s)
      | some acc =>
        match findDriver s acc.driver_id with
        | none => (Res.serverError, s)
        | some _ =>
          let s1 := addNotif s
            { user_id := some caller.id, driver_id := some acc.driver_id,
              order_id := some order.id, type := NotifType.ring,
              title := "🔔 Ring from Customer", message := message }
          (Res.success, s1)

/-!
## Notification ledger operations (`NotificationController`)
-/

/-- The owner filter `getNotifications`/`markAllAsRead` build from the
caller: role `'user'` (the router role) filters on `user_id`, role
`'driver'` on `driver_id`. -/
def ownerMatches (caller : AuthUser) (n : NotifDoc) : Bool :=
  match caller.role with
  | Role.router => n.user_id == some caller.id
  | Role.driver => n.driver_id == some caller.id

/-- The Mongo query object of `getNotifications`: owner filter plus
`is_read: false` when `unreadOnly` is requested. -/
def notifQuery (caller : AuthUser) (unreadOnly : Bool) (n : NotifDoc) : Bool :=
  ownerMatches caller n && (!unreadOnly || !n.is_read)

/-- Response of `getNotifications`. -/
structure NotifPage where
  notifications : List NotifDoc
  total : Nat
  unreadCount : Nat
deriving Repr

/-- Models `getNotifications`: page of matching notifications sorted by
`createdAt` descending (the reverse of insertion order, since ids are
assigned from an increasing counter), plus `total` and `unreadCount`
computed with the same owner-scoped query. -/
def getNotifications (s : Store) (caller : AuthUser) (page limit : Nat)
    (unreadOnly : Bool) : NotifPage :=
  let sorted := (s.notifications.filter (notifQuery caller unreadOnly)).reverse
  { notifications := (sorted.drop ((page - 1) * limit)).take limit
    total := (s.notifications.filter (notifQuery caller unreadOnly)).length
    unreadCount := (s.notifications.filter fun n =>
      notifQuery caller unreadOnly n && !n.is_read).length }

/-- Models `markAsRead`: `Notification.findByIdAndUpdate(id, { is_read: true })`.
The controller reads no field of `req.user`: there is no owner check. -/
def markAsRead (s : Store) (_caller : AuthUser) (i : Nat) : Res × Store :=
  match findNotif s i with
  | none => (Res.notFound, s)
  | some _ =>
    (Res.success,
      { s with notifications := s.notifications.map fun n =>
          if n.id == i then { n with is_read := true } else n })

/-- Models `markAllAsRead`: `updateMany` over the caller's own unread
notifications. -/
def markAllAsRead (s : Store) (caller : AuthUser) : Res × Store :=
  (Res.success,
    { s with notifications := s.notifications.map fun n =>
        if ownerMatches caller n && !n.is_read then { n with is_read := true } else n })

/-- Models `deleteNotification`: `Notification.findByIdAndDelete(id)`; like
`markAsRead` it performs no owner check. -/
def deleteNotification (s : Store) (_caller : AuthUser) (i : Nat) : Res × Store :=
  match findNotif s i with
  | none => (Res.notFound, s)
  | some _ =>
    (Res.success, { s with notifications := s.notifications.filter fun n => n.id != i })

/-!
## Generic list lemmas
-/

/-- Lemma: `find?` commutes with a map that does not change the tested predicate. -/
theorem find?_map_eq {α : Type} (l : List α) (g : α → α) (p : α → Bool)
    (hp : ∀ a, p (g a) = p a) :
    (l.map g).find? p = (l.find? p).map g := by
  induction l with
  | nil => rfl
  | cons a tl ih =>
    by_cases h : p a = true
    · simp only [List.map_cons]
      rw [List.find?_cons_of_pos _ (by rw [hp]; exact h),
        List.find?_cons_of_pos _ h, Option.map_some']
    · simp only [List.map_cons]
      rw [List.find?_cons_of_neg _ (by rw [hp]; exact h),
        List.find?_cons_of_neg _ h, ih]

/-- In a list whose elements have pairwise distinct keys, at most one
element matches a given key. -/
theorem countP_key_le_one {α : Type} (key : α → Nat) (l : List α)
    (h : l.Pairwise (fun a b => key a ≠ key b)) (i : Nat) :
    l.countP (fun a => key a == i) ≤ 1 := by
  induction l with
  | nil => simp
  | cons a tl ih =>
    rw [List.pairwise_cons] at h
    rw [List.countP_cons]
    by_cases ha : key a == i
    · have h0 : tl.countP (fun b => key b == i) = 0 := by
        rw [List.countP_eq_zero]
        intro b hb hbi
        exact h.1 b hb ((beq_iff_eq.mp ha).trans (beq_iff_eq.mp hbi).symm)
      simp [h0, ha]
    · simpa [ha] using ih h.2

/-- In a list with pairwise distinct keys, an element sharing the key of a
`find?` result is that result. -/
theorem eq_of_mem_of_key {α : Type} (key : α → Nat) (l : List α)
    (h : l.Pairwise (fun a b => key a ≠ key b)) {a b : α}
    (ha : a ∈ l) (hb : b ∈ l) (hk : key a = key b) : a = b := by
  induction l with
  | nil => cases ha
  | cons x tl ih =>
    rw [List.pairwise_cons] at h
    rcases List.mem_cons.mp ha with rfl | ha'
    · rcases List.mem_cons.mp hb with rfl | hb'
      · rfl
      · exact absurd hk (h.1 b hb')
    · rcases List.mem_cons.mp hb with rfl | hb'
      · exact absurd hk.symm (h.1 a ha')
      · exact ih h.2 ha' hb'

/-!
## The at-most-one-Accepted-offer invariant (spec §3/§8)
-/

/-- The offer counts towards order `orderId`'s Accepted offers. -/
def acceptedFor (orderId : Nat) (f : OfferDoc) : Bool :=
  f.order_id == orderId && f.status == OfferStatus.accepted

/-- For every order, at most one Offer with status Accepted exists. -/
def AtMostOneAccepted (l : List OfferDoc) : Prop :=
  ∀ o : Nat, l.countP (acceptedFor o) ≤ 1

/-- Some order document with the given id is present. -/
def hasOrderId (l : List OrderDoc) (i : Nat) : Prop :=
  ∃ o ∈ l, o.id = i

/-- Well-formedness of a store, as maintained by the negotiation-engine
operations: offer ids are below the fresh-id counter and pairwise distinct
(ObjectId uniqueness), every offer references an existing order (offers are
only created against a found order and orders are not deleted by these
operations), and the spec's at-most-one-Accepted invariant. -/
structure StoreWF (s : Store) : Prop where
  offerIdsBound : ∀ f ∈ s.offers, f.id < s.nextId
  offerIdsDistinct : s.offers.Pairwise fun a b => a.id ≠ b.id
  offerOrderRef : ∀ f ∈ s.offers, hasOrderId s.orders f.order_id
  accepted : AtMostOneAccepted s.offers

theorem hasOrderId_setOrderStatus (l : List OrderDoc) (i : Nat) (st : OrderStatus)
    (j : Nat) (h : hasOrderId l j) : hasOrderId (setOrderStatus l i st) j := by
  rcases h with ⟨o, ho, rfl⟩
  refine ⟨if o.id == i then { o with status := st } else o,
    List.mem_map_of_mem _ ho, ?_⟩
  split <;> rfl

theorem hasOrderId_append (l : List OrderDoc) (l' : List OrderDoc) (j : Nat)
    (h : hasOrderId l j) : hasOrderId (l ++ l') j := by
  rcases h with ⟨o, ho, rfl⟩
  exact ⟨o, List.mem_append.mpr (Or.inl ho), rfl⟩

/-- WF transport to a store with the same offers, weakly grown orders and
counter. -/
theorem StoreWF.transport {s t : Store} (h : StoreWF s)
    (hoff : t.offers = s.offers)
    (hord : ∀ i, hasOrderId s.orders i → hasOrderId t.orders i)
    (hnid : s.nextId ≤ t.nextId) : StoreWF t := by
  refine ⟨?_, ?_, ?_, ?_⟩
  · intro f hf
    exact lt_of_lt_of_le (h.offerIdsBound f (hoff ▸ hf)) hnid
  · exact hoff ▸ h.offerIdsDistinct
  · intro f hf
    exact hord _ (h.offerOrderRef f (hoff ▸ hf))
  · intro o
    exact hoff ▸ h.accepted o

/-- WF transport to a store whose offers are an id- and
order-reference-preserving map of the old offers, provided the
at-most-one-Accepted count is re-established separately. -/
theorem StoreWF.mapOffers {s t : Store} (h : StoreWF s) (g : OfferDoc → OfferDoc)
    (hoff : t.offers = s.offers.map g)
    (hid : ∀ f, (g f).id = f.id)
    (hordid : ∀ f, (g f).order_id = f.order_id)
    (hacc : AtMostOneAccepted (s.offers.map g))
    (hord : ∀ i, hasOrderId s.orders i → hasOrderId t.orders i)
    (hnid : s.nextId ≤ t.nextId) : StoreWF t := by
  refine ⟨?_, ?_, ?_, ?_⟩
  · intro f hf
    rcases List.mem_map.mp (hoff ▸ hf) with ⟨f0, hf0, rfl⟩
    rw [hid]
    exact lt_of_lt_of_le (h.offerIdsBound f0 hf0) hnid
  · rw [hoff]
    exact List.Pairwise.map g (fun a b hab => by rw [hid, hid]; exact hab)
      h.offerIdsDistinct
  · intro f hf
    rcases List.mem_map.mp (hoff ▸ hf) with ⟨f0, hf0, rfl⟩
    rw [hordid]
    exact hord _ (h.offerOrderRef f0 hf0)
  · intro o
    exact hoff ▸ hacc o

/-- WF transport to a store appending one fresh Pending offer referencing
an existing order. -/
theorem StoreWF.appendOffer {s t : Store} (h : StoreWF s) (newf : OfferDoc)
    (hoff : t.offers = s.offers ++ [newf])
    (hid : newf.id = s.nextId)
    (hst : newf.status = OfferStatus.pending)
    (href : hasOrderId s.orders newf.order_id)
    (hord : ∀ i, hasOrderId s.orders i → hasOrderId t.orders i)
    (hnid : s.nextId < t.nextId) : StoreWF t := by
  refine ⟨?_, ?_, ?_, ?_⟩
  · intro f hf
    rcases List.mem_append.mp (hoff ▸ hf) with hf' | hf'
    · exact lt_of_lt_of_le (h.offerIdsBound f hf') (le_of_lt hnid)
    · rw [List.mem_singleton.mp hf', hid]
      exact hnid
  · rw [hoff, List.pairwise_append]
    refine ⟨h.offerIdsDistinct, List.pairwise_singleton _ _, ?_⟩
    intro a ha b hb
    rw [List.mem_singleton.mp hb, hid]
    exact Nat.ne_of_lt (h.offerIdsBound a ha)
  · intro f hf
    rcases List.mem_append.mp (hoff ▸ hf) with hf' | hf'
    · exact hord _ (h.offerOrderRef f hf')
    · rw [List.mem_singleton.mp hf']
      exact hord _ href
  · intro o
    rw [hoff, List.countP_append]
    have : List.countP (acceptedFor o) [newf] = 0 := by
      simp [acceptedFor, hst]
    rw [this, Nat.add_zero]
    exact h.accepted o

/-- Pointwise effect of accepting offer `tid` and then rejecting its
siblings on membership in order `o`'s Accepted offers. -/
theorem acceptedFor_after_accept (X tid o : Nat) (f : OfferDoc) :
    acceptedFor o
      ((fun f => if f.order_id == X && f.id != tid then { f with status := OfferStatus.rejected } else f)
        ((fun f => if f.id == tid then { f with status := OfferStatus.accepted } else f) f))
    = if f.id == tid then f.order_id == o
      else if f.order_id == X then false
      else acceptedFor o f := by
  by_cases h1 : f.id = tid <;> by_cases h2 : f.order_id = X <;>
    simp [acceptedFor, h1, h2]

/-- After `offer.save()` with status Accepted and the sibling `updateMany`
with status Rejected, every order again has at most one Accepted offer —
whatever the statuses were before. -/
theorem atMostOne_after_accept (l : List OfferDoc) (tid : Nat) (off : OfferDoc)
    (hfind : l.find? (fun f => f.id == tid) = some off)
    (hdist : l.Pairwise fun a b => a.id ≠ b.id)
    (hinv : AtMostOneAccepted l) :
    AtMostOneAccepted (rejectSiblings (setOfferStatus l tid OfferStatus.accepted)
      off.order_id tid) := by
  intro o
  have hofftid : off.id = tid := by
    have h := List.find?_some hfind
    simpa using h
  have hoffmem : off ∈ l := List.mem_of_find?_eq_some hfind
  rw [rejectSiblings, setOfferStatus, List.map_map, List.countP_map]
  by_cases ho : off.order_id = o
  · refine le_trans (List.countP_mono_left ?_) (countP_key_le_one (fun f => f.id) l hdist tid)
    intro f _ hp
    simp only [Function.comp_apply] at hp
    rw [acceptedFor_after_accept] at hp
    by_cases h1 : f.id == tid
    · exact h1
    · exfalso
      rw [if_neg (by exact h1)] at hp
      by_cases h2 : f.order_id == off.order_id
      · rw [if_pos h2] at hp
        exact Bool.false_ne_true hp
      · rw [if_neg (by exact h2)] at hp
        exact h2 (by simp [acceptedFor, ho] at hp ⊢; exact hp.1)
  · refine le_trans (List.countP_mono_left ?_) (hinv o)
    intro f hf hp
    simp only [Function.comp_apply] at hp
    rw [acceptedFor_after_accept] at hp
    by_cases h1 : f.id == tid
    · exfalso
      have hfeq : f = off :=
        eq_of_mem_of_key (fun f => f.id) l hdist hf hoffmem
          ((beq_iff_eq.mp h1).trans hofftid.symm)
      rw [if_pos h1] at hp
      exact ho (hfeq ▸ beq_iff_eq.mp hp)
    · rw [if_neg (by exact h1)] at hp
      by_cases h2 : f.order_id == off.order_id
      · rw [if_pos h2] at hp
        exact absurd hp Bool.false_ne_true
      · rwa [if_neg (by exact h2)] at hp

/-- Lemma: `findByIdAndUpdate(..., { status: 'Rejected' })` can only decrease the
set of Accepted offers. -/
theorem atMostOne_after_reject (l : List OfferDoc) (tid : Nat)
    (hinv : AtMostOneAccepted l) :
    AtMostOneAccepted (setOfferStatus l tid OfferStatus.rejected) := by
  intro o
  rw [setOfferStatus, List.countP_map]
  refine le_trans (List.countP_mono_left ?_) (hinv o)
  intro f _ hp
  rw [Function.comp_apply] at hp
  by_cases h1 : f.id == tid
  · rw [if_pos h1] at hp
    simp [acceptedFor] at hp
  · rwa [if_neg (by exact h1)] at hp

theorem wf_createOrder (s : Store) (c : AuthUser) (vt : Nat) (fl tl : String)
    (h : StoreWF s) : StoreWF (createOrder s c vt fl tl).2 := by
  unfold createOrder
  split
  · exact h
  · split
    · exact h
    · refine h.transport ?_ ?_ ?_
      · simp [addNotif, addNotifs]
      · intro i hi
        simp only [addNotif, addNotifs]
        exact hasOrderId_append _ _ _ hi
      · simp only [addNotif, addNotifs]
        omega

theorem wf_createOffer (s : Store) (c : AuthUser) (oid : Nat) (p : Int) (no : String)
    (h : StoreWF s) : StoreWF (createOffer s c oid p no).2 := by
  unfold createOffer
  split
  · exact h
  · split
    · exact h
    · split
      · exact h
      · rename_i order heq
        split
        · exact h
        · refine h.appendOffer
            { id := s.nextId, order_id := oid, driver_id := c.id, price := p,
              notes := no, status := OfferStatus.pending } ?_ rfl rfl ?_ ?_ ?_
          · simp [addNotif]
          · refine ⟨order, List.mem_of_find?_eq_some heq, ?_⟩
            have := List.find?_some heq
            simpa [findOrder] using this
          · intro i hi
            simpa [addNotif] using hi
          · simp only [addNotif]
            omega

theorem wf_createOfferLegacy (s : Store) (c : AuthUser) (oid : Nat) (p : Int)
    (no : String) (h : StoreWF s) : StoreWF (createOfferLegacy s c oid p no).2 := by
  unfold createOfferLegacy
  split
  · exact h
  · rename_i order heq
    split
    · exact h
    · refine h.appendOffer
        { id := s.nextId, order_id := oid, driver_id := c.id, price := p,
          notes := no, status := OfferStatus.pending } ?_ rfl rfl ?_ ?_ ?_
      · simp [addNotif]
      · refine ⟨order, List.mem_of_find?_eq_some heq, ?_⟩
        have := List.find?_some heq
        simpa [findOrder] using this
      · intro i hi
        simpa [addNotif] using hi
      · simp only [addNotif]
        omega

theorem wf_acceptOffer (s : Store) (c : AuthUser) (oid : Nat)
    (h : StoreWF s) : StoreWF (acceptOffer s c oid).2 := by
  unfold acceptOffer
  split
  · exact h
  · split
    · exact h
    · rename_i off heq
      split
      · exact h
      · split
        · exact h
        · refine h.mapOffers
            ((fun f => if f.order_id == off.order_id && f.id != oid then
                { f with status := OfferStatus.rejected } else f) ∘
             (fun f => if f.id == oid then
                { f with status := OfferStatus.accepted } else f)) ?_ ?_ ?_ ?_ ?_ ?_
          · simp only [addNotif, addNotifs, rejectSiblings, setOfferStatus, List.map_map]
          · intro f
            by_cases h1 : f.id = oid <;> by_cases h2 : f.order_id = off.order_id <;>
              simp [h1, h2]
          · intro f
            by_cases h1 : f.id = oid <;> by_cases h2 : f.order_id = off.order_id <;>
              simp [h1, h2]
          · have hcore := atMostOne_after_accept s.offers oid off
              (by simpa [findOffer] using heq) h.offerIdsDistinct h.accepted
            rwa [rejectSiblings, setOfferStatus, List.map_map] at hcore
          · intro i hi
            simp only [addNotif, addNotifs]
            exact hasOrderId_setOrderStatus _ _ _ _ hi
          · simp only [addNotif, addNotifs]
            omega

theorem wf_acceptOfferLegacy (s : Store) (c : AuthUser) (oid : Nat)
    (h : StoreWF s) : StoreWF (acceptOfferLegacy s c oid).2 := by
  unfold acceptOfferLegacy
  split
  · exact h
  · rename_i off heq
    have hoffmem : off ∈ s.offers := List.mem_of_find?_eq_some heq
    split
    · -- a dangling order reference is impossible on a well-formed store
      rename_i heq2
      rcases h.offerOrderRef off hoffmem with ⟨ord, hordmem, hordid⟩
      have := List.find?_eq_none.mp heq2 ord hordmem
      simp [hordid] at this
    · have hmap : StoreWF s → StoreWF
          { s with
            orders := setOrderStatus s.orders off.order_id OrderStatus.active,
            offers := rejectSiblings (setOfferStatus s.offers oid OfferStatus.accepted)
              off.order_id oid } := by
        intro h'
        refine h'.mapOffers
          ((fun f => if f.order_id == off.order_id && f.id != oid then
              { f with status := OfferStatus.rejected } else f) ∘
           (fun f => if f.id == oid then
              { f with status := OfferStatus.accepted } else f)) ?_ ?_ ?_ ?_ ?_ ?_
        · simp only [rejectSiblings, setOfferStatus, List.map_map]
        · intro f
          by_cases h1 : f.id = oid <;> by_cases h2 : f.order_id = off.order_id <;>
            simp [h1, h2]
        · intro f
          by_cases h1 : f.id = oid <;> by_cases h2 : f.order_id = off.order_id <;>
            simp [h1, h2]
        · have hcore := atMostOne_after_accept s.offers oid off
            (by simpa [findOffer] using heq) h'.offerIdsDistinct h'.accepted
          rwa [rejectSiblings, setOfferStatus, List.map_map] at hcore
        · intro i hi
          exact hasOrderId_setOrderStatus _ _ _ _ hi
        · exact le_refl _
      split
      · exact hmap h
      · exact (hmap h).transport (by simp [addNotif]) (fun i hi => by simpa [addNotif] using hi)
          (by simp [addNotif])

theorem wf_rejectOffer (s : Store) (c : AuthUser) (oid : Nat)
    (h : StoreWF s) : StoreWF (rejectOffer s c oid).2 := by
  unfold rejectOffer
  split
  · exact h
  · rename_i off heq
    have hmap : StoreWF { s with offers := setOfferStatus s.offers oid OfferStatus.rejected } := by
      refine h.mapOffers
        (fun f => if f.id == oid then { f with status := OfferStatus.rejected } else f)
        ?_ ?_ ?_ ?_ ?_ ?_
      · simp only [setOfferStatus]
      · intro f
        by_cases h1 : f.id = oid <;> simp [h1]
      · intro f
        by_cases h1 : f.id = oid <;> simp [h1]
      · have := atMostOne_after_reject s.offers oid h.accepted
        rwa [setOfferStatus] at this
      · exact fun i hi => hi
      · exact le_refl _
    split
    · exact hmap
    · split
      · exact hmap
      · exact hmap.transport (by simp [addNotif]) (fun i hi => by simpa [addNotif] using hi)
          (by simp [addNotif])

/-- Store states reachable through the Negotiation Engine operations
(CreateOrder, SubmitOffer, AcceptOffer, RejectOffer — both controller
variants of each where the repository has two), starting from any store
with an empty offer collection.  Profile/vehicle CRUD and the notification
ledger never write the `offers` collection, so pre-existing drivers,
vehicles and orders are arbitrary in the start state. -/
inductive Reachable : Store → Prop where
  | init (s : Store) (hoff : s.offers = []) : Reachable s
  | createOrderStep (s : Store) (c : AuthUser) (vt : Nat) (fl tl : String) :
      Reachable s → Reachable (createOrder s c vt fl tl).2
  | createOfferStep (s : Store) (c : AuthUser) (oid : Nat) (p : Int) (no : String) :
      Reachable s → Reachable (createOffer s c oid p no).2
  | createOfferLegacyStep (s : Store) (c : AuthUser) (oid : Nat) (p : Int) (no : String) :
      Reachable s → Reachable (createOfferLegacy s c oid p no).2
  | acceptOfferStep (s : Store) (c : AuthUser) (oid : Nat) :
      Reachable s → Reachable (acceptOffer s c oid).2
  | acceptOfferLegacyStep (s : Store) (c : AuthUser) (oid : Nat) :
      Reachable s → Reachable (acceptOfferLegacy s c oid).2
  | rejectOfferStep (s : Store) (c : AuthUser) (oid : Nat) :
      Reachable s → Reachable (rejectOffer s c oid).2

theorem wf_of_no_offers (s : Store) (hoff : s.offers = []) : StoreWF s := by
  refine ⟨?_, ?_, ?_, ?_⟩
  · intro f hf
    rw [hoff] at hf
    cases hf
  · rw [hoff]
    exact List.Pairwise.nil
  · intro f hf
    rw [hoff] at hf
    cases hf
  · intro o
    rw [hoff]
    simp

theorem wf_reachable (s : Store) (h : Reachable s) : StoreWF s := by
  induction h with
  | init s hoff => exact wf_of_no_offers s hoff
  | createOrderStep s c vt fl tl _ ih => exact wf_createOrder s c vt fl tl ih
  | createOfferStep s c oid p no _ ih => exact wf_createOffer s c oid p no ih
  | createOfferLegacyStep s c oid p no _ ih => exact wf_createOfferLegacy s c oid p no ih
  | acceptOfferStep s c oid _ ih => exact wf_acceptOffer s c oid ih
  | acceptOfferLegacyStep s c oid _ ih => exact wf_acceptOfferLegacy s c oid ih
  | rejectOfferStep s c oid _ ih => exact wf_rejectOffer s c oid ih

/-!
## Shape of the accept mutation
-/

/-- After the accept save and the sibling `updateMany`, looking up the
accepted offer returns it with status Accepted and all other fields
unchanged. -/
theorem findOffer_after_accept (l : List OfferDoc) (oid : Nat) (off : OfferDoc)
    (h : l.find? (fun f => f.id == oid) = some off) :
    (rejectSiblings (setOfferStatus l oid OfferStatus.accepted) off.order_id oid).find?
      (fun f => f.id == oid) = some { off with status := OfferStatus.accepted } := by
  have hid : off.id = oid := by simpa using List.find?_some h
  rw [rejectSiblings, setOfferStatus, List.map_map,
    find?_map_eq _ _ _ (fun a => by
      by_cases h1 : a.id = oid <;> by_cases h2 : a.order_id = off.order_id <;>
        simp [h1, h2]), h]
  simp [Function.comp, hid]

/-- After the accept save and the sibling `updateMany`, every offer of the
same order other than the accepted one has status Rejected. -/
theorem siblings_rejected_after_accept (l : List OfferDoc) (oid X : Nat) :
    ∀ f ∈ rejectSiblings (setOfferStatus l oid OfferStatus.accepted) X oid,
      f.order_id = X → f.id ≠ oid → f.status = OfferStatus.rejected := by
  intro f hf hX hid
  rw [rejectSiblings, setOfferStatus, List.map_map] at hf
  rcases List.mem_map.mp hf with ⟨f0, _, rfl⟩
  simp only [Function.comp_apply] at hX hid ⊢
  by_cases h1 : f0.id = oid
  · exfalso
    apply hid
    simp [h1]
  · by_cases h2 : f0.order_id = X
    · simp [h1, h2]
    · simp [h1, h2] at hX

/-- Lemma: `Order.findByIdAndUpdate(X, { status: 'Active' })` makes the
looked-up order Active. -/
theorem findOrder_after_activate (l : List OrderDoc) (X : Nat) (ord : OrderDoc)
    (h : l.find? (fun o => o.id == X) = some ord) :
    (setOrderStatus l X OrderStatus.active).find? (fun o => o.id == X)
      = some { ord with status := OrderStatus.active } := by
  have hid : ord.id = X := by simpa using List.find?_some h
  rw [setOrderStatus,
    find?_map_eq _ _ _ (fun a => by by_cases h1 : a.id = X <;> simp [h1]), h]
  simp [hid]

/-- Success equation for the validated `acceptOffer`: under the four guard
conditions the call succeeds and applies exactly the three-part mutation. -/
theorem acceptOffer_success_eq (s : Store) (c : AuthUser) (oid : Nat) (off : OfferDoc)
    (ord : OrderDoc)
    (hrole : c.role = Role.router)
    (hoff : findOffer s oid = some off)
    (hord : findOrderOwned s off.order_id c.id = some ord)
    (hpend : off.status = OfferStatus.pending) :
    (acceptOffer s c oid).1 = Res.success ∧
    (acceptOffer s c oid).2.offers
      = rejectSiblings (setOfferStatus s.offers oid OfferStatus.accepted) off.order_id oid ∧
    (acceptOffer s c oid).2.orders = setOrderStatus s.orders off.order_id OrderStatus.active := by
  unfold acceptOffer
  simp only [hrole, hoff, hord, hpend, addNotif, addNotifs]
  simp

/-- Inversion for the validated `acceptOffer`: success implies the guards
passed and determines the resulting offer and order collections. -/
theorem acceptOffer_success_inv (s : Store) (c : AuthUser) (oid : Nat)
    (h : (acceptOffer s c oid).1 = Res.success) :
    c.role = Role.router ∧
    ∃ off, findOffer s oid = some off ∧
      (∃ ord, findOrderOwned s off.order_id c.id = some ord) ∧
      off.status = OfferStatus.pending ∧
      (acceptOffer s c oid).2.offers
        = rejectSiblings (setOfferStatus s.offers oid OfferStatus.accepted) off.order_id oid ∧
      (acceptOffer s c oid).2.orders = setOrderStatus s.orders off.order_id OrderStatus.active := by
  have h' := h
  unfold acceptOffer at h'
  split at h'
  · simp at h'
  · rename_i hrole'
    have hrole : c.role = Role.router := by
      cases hr : c.role
      · rfl
      · rw [hr] at hrole'
        simp at hrole'
    split at h'
    · simp at h'
    · rename_i off hoff
      split at h'
      · simp at h'
      · rename_i ord hord
        split at h'
        · simp at h'
        · rename_i hpend'
          have hpend : off.status = OfferStatus.pending := by
            by_contra hne
            exact hpend' (by simpa using hne)
          rcases acceptOffer_success_eq s c oid off ord hrole hoff hord hpend
            with ⟨_, hoffers, horders⟩
          exact ⟨hrole, off, hoff, ⟨ord, hord⟩, hpend, hoffers, horders⟩

/-- Success/driver-missing equations for the legacy `acceptOffer`: once the
offer and its order are found, the three-part mutation is applied (the
notification write then needs the driver present too, but by then the
mutation is complete). -/
theorem acceptOfferLegacy_success_inv (s : Store) (c : AuthUser) (oid : Nat)
    (h : (acceptOfferLegacy s c oid).1 = Res.success) :
    ∃ off, findOffer s oid = some off ∧
      (findOrder s off.order_id).isSome ∧
      (acceptOfferLegacy s c oid).2.offers
        = rejectSiblings (setOfferStatus s.offers oid OfferStatus.accepted) off.order_id oid ∧
      (acceptOfferLegacy s c oid).2.orders
        = setOrderStatus s.orders off.order_id OrderStatus.active := by
  have h' := h
  unfold acceptOfferLegacy at h'
  split at h'
  · simp at h'
  · rename_i off hoff
    split at h'
    · simp at h'
    · rename_i ord hord
      split at h'
      · simp at h'
      · rename_i drv hdrv
        refine ⟨off, hoff, by rw [hord]; rfl, ?_, ?_⟩ <;>
          · unfold acceptOfferLegacy
            simp only [hoff, hord, hdrv, addNotif]

/-!
## Shape of offer submission
-/

/-- Number of Offer rows for a given (order, driver) pair. -/
def offersForPair (s : Store) (orderId driverId : Nat) : Nat :=
  s.offers.countP (fun f => f.order_id == orderId && f.driver_id == driverId)

/-- Success equation for the validated `createOffer`. -/
theorem createOffer_success_eq (s : Store) (d : AuthUser) (O : Nat) (p : Int)
    (no : String) (ord : OrderDoc)
    (hrole : d.role = Role.driver) (hp : 0 ≤ p)
    (hord : findOrder s O = some ord) (hnone : findOfferPair s O d.id = none) :
    (createOffer s d O p no).1 = Res.success ∧
    (createOffer s d O p no).2.offers
      = s.offers ++ [{ id := s.nextId, order_id := O, driver_id := d.id, price := p,
                       notes := no, status := OfferStatus.pending }] ∧
    (createOffer s d O p no).2.orders = s.orders := by
  unfold createOffer
  simp [hrole, hord, hnone, addNotif, not_lt.mpr hp]

/-- Conflict equation for the validated `createOffer`: an existing offer
for the (order, driver) pair makes the call fail with 400 (Conflict) and
leave the store unchanged. -/
theorem createOffer_conflict_eq (s : Store) (d : AuthUser) (O : Nat) (q : Int)
    (no : String) (f : OfferDoc)
    (hrole : d.role = Role.driver) (hq : 0 ≤ q)
    (hord : (findOrder s O).isSome) (hsome : findOfferPair s O d.id = some f) :
    createOffer s d O q no = (Res.conflict, s) := by
  rcases Option.isSome_iff_exists.mp hord with ⟨ord, hord'⟩
  unfold createOffer
  simp [hrole, hord', hsome, not_lt.mpr hq]

/-- Conflict equation for the legacy `createOffer` (no role or price
check). -/
theorem createOfferLegacy_conflict_eq (s : Store) (c : AuthUser) (O : Nat) (q : Int)
    (no : String) (f : OfferDoc)
    (hord : (findOrder s O).isSome) (hsome : findOfferPair s O c.id = some f) :
    createOfferLegacy s c O q no = (Res.conflict, s) := by
  rcases Option.isSome_iff_exists.mp hord with ⟨ord, hord'⟩
  unfold createOfferLegacy
  simp [hord', hsome]

/-!
## Shape of order creation
-/

/-- Success equation for `createOrder`, exposing exactly which
notifications are appended: one `order_created` for the router, then one
`new_order_available` per category-matching driver. -/
theorem createOrder_success_eq (s : Store) (c : AuthUser) (vt : Nat) (fl tl : String)
    (vtd : VehicleDoc)
    (hrole : c.role = Role.router)
    (hvt : findVehicle s vt = some vtd) :
    (createOrder s c vt fl tl).1 = Res.success ∧
    (createOrder s c vt fl tl).2.notifications
      = s.notifications
        ++ [NotifData.toDoc
              { user_id := some c.id, driver_id := none, order_id := some s.nextId,
                type := NotifType.order_created, title := "Order Created",
                message := "Your order has been created successfully" } (s.nextId + 1)]
        ++ mkNotifDocs (s.nextId + 2)
            ((matchingDrivers s vtd.category).map (newOrderAvailableData s.nextId fl tl)) := by
  unfold createOrder
  simp [hrole, hvt, addNotif, addNotifs]

/-- Counting documents built by `insertMany` via a predicate that ignores
the assigned ids. -/
theorem countP_mkNotifDocs (p : NotifDoc → Bool) (q : NotifData → Bool)
    (hq : ∀ d i, p (d.toDoc i) = q d) :
    ∀ (i : Nat) (ds : List NotifData), (mkNotifDocs i ds).countP p = ds.countP q := by
  intro i ds
  induction ds generalizing i with
  | nil => rfl
  | cons d ds ih =>
    rw [mkNotifDocs, List.countP_cons, List.countP_cons, hq, ih]

/-- In a list with pairwise distinct keys, the number of elements of a
filtered sublist sharing a member's key is 1 or 0 according to whether the
member passes the filter. -/
theorem countP_filter_key (l : List DriverDoc) (pred : DriverDoc → Bool) (dr : DriverDoc)
    (hdist : l.Pairwise fun a b => a.id ≠ b.id) (hmem : dr ∈ l) :
    (l.filter pred).countP (fun d => d.id == dr.id) = if pred dr then 1 else 0 := by
  induction l with
  | nil => cases hmem
  | cons a tl ih =>
    rw [List.pairwise_cons] at hdist
    rcases List.mem_cons.mp hmem with rfl | hmem'
    · have htl0 : (tl.filter pred).countP (fun d => d.id == dr.id) = 0 := by
        rw [List.countP_eq_zero]
        intro b hb hbid
        exact hdist.1 b (List.mem_of_mem_filter hb) (beq_iff_eq.mp hbid).symm
      by_cases hp : pred dr
      · rw [List.filter_cons_of_pos hp, List.countP_cons]
        simp [hp, htl0]
      · rw [List.filter_cons_of_neg hp]
        simp [hp, htl0]
    · have hane : a.id ≠ dr.id := hdist.1 dr hmem'
      by_cases hp : pred a
      · rw [List.filter_cons_of_pos hp, List.countP_cons, ih hdist.2 hmem']
        simp [hane]
      · rw [List.filter_cons_of_neg hp]
        exact ih hdist.2 hmem'

/-!
## Shape of single-offer rejection and notification updates
-/

/-- Lemma: `findByIdAndUpdate(id, { status })` makes the looked-up offer carry the
new status and keep every other field. -/
theorem findOffer_setOfferStatus (l : List OfferDoc) (oid : Nat) (st : OfferStatus)
    (off : OfferDoc) (h : l.find? (fun f => f.id == oid) = some off) :
    (setOfferStatus l oid st).find? (fun f => f.id == oid)
      = some { off with status := st } := by
  have hid : off.id = oid := by simpa using List.find?_some h
  rw [setOfferStatus,
    find?_map_eq _ _ _ (fun a => by by_cases h1 : a.id = oid <;> simp [h1]), h]
  simp [hid]

/-- Success equation for the legacy `rejectOffer`: when the offer and its
populated references exist, the call succeeds, sets the one offer to
Rejected and leaves the order collection alone. -/
theorem rejectOffer_success_eq (s : Store) (c : AuthUser) (oid : Nat)
    (off : OfferDoc) (drv : DriverDoc) (ord : OrderDoc)
    (hoff : findOffer s oid = some off)
    (hdrv : findDriver s off.driver_id = some drv)
    (hord : findOrder s off.order_id = some ord) :
    (rejectOffer s c oid).1 = Res.success ∧
    (rejectOffer s c oid).2.offers = setOfferStatus s.offers oid OfferStatus.rejected ∧
    (rejectOffer s c oid).2.orders = s.orders := by
  unfold rejectOffer
  simp [hoff, hdrv, hord, addNotif]

/-- Equation for `markAsRead` on an existing notification. -/
theorem markAsRead_success_eq (s : Store) (c : AuthUser) (i : Nat) (n : NotifDoc)
    (h : findNotif s i = some n) :
    markAsRead s c i
      = (Res.success, { s with notifications := s.notifications.map fun m =>
          if m.id == i then { m with is_read := true } else m }) := by
  unfold markAsRead
  rw [h]

/-- Two boolean counts agree when the predicates agree on the list. -/
theorem countP_ext {α : Type} (l : List α) (p q : α → Bool) (h : ∀ a ∈ l, p a = q a) :
    l.countP p = l.countP q :=
  le_antisymm
    (List.countP_mono_left fun a ha hp => by rw [← h a ha]; exact hp)
    (List.countP_mono_left fun a ha hq => by rw [h a ha]; exact hq)

/-!
## Concrete stores for witnesses and counterexamples
-/

/-- Router with id 1 (role spelled `'router'`/`'user'` depending on the
controller variant). -/
def exRouter : AuthUser := { id := 1, role := Role.router, fullName := "Router One" }

def exDriverA : AuthUser := { id := 20, role := Role.driver, fullName := "Driver Twenty" }

def exDriverB : AuthUser := { id := 21, role := Role.driver, fullName := "Driver TwentyOne" }

/-- Pending order 10 of router 1 with vehicle type 3 (category Large). -/
def exOrder10 : OrderDoc :=
  { id := 10, customer_id := 1, from_location := "A", to_location := "B",
    vehicle_type := 3, status := OrderStatus.pending }

/-- Offer 1: driver 20's Pending bid on order 10. -/
def exOffer1 : OfferDoc :=
  { id := 1, order_id := 10, driver_id := 20, price := 100, notes := "",
    status := OfferStatus.pending }

/-- Offer 2: driver 21's Pending bid on order 10. -/
def exOffer2 : OfferDoc :=
  { id := 2, order_id := 10, driver_id := 21, price := 90, notes := "",
    status := OfferStatus.pending }

/-- A store with one Pending order of router 1 (vehicle category Large),
three drivers (two with Large-category vehicles, one Small), and no offers
yet. -/
def exBase : Store :=
  { orders := [exOrder10]
    offers := []
    notifications := []
    drivers := [{ id := 20, fullName := "Driver Twenty", vehicleType := 3 },
                { id := 21, fullName := "Driver TwentyOne", vehicleType := 3 },
                { id := 22, fullName := "Driver TwentyTwo", vehicleType := 4 }]
    vehicles := [{ id := 3, category := "Large" }, { id := 4, category := "Small" }]
    nextId := 30 }

/-- Store `exBase` with the two Pending offers on order 10. -/
def exS : Store :=
  { exBase with offers := [exOffer1, exOffer2] }

/-- Store `exS` but with offer 1 already Accepted and order 10 Active. -/
def exAccepted : Store :=
  { exBase with
    orders := [{ exOrder10 with status := OrderStatus.active }]
    offers := [{ exOffer1 with status := OfferStatus.accepted }, exOffer2] }

/-- Unread notification 5 owned by router/user 1. -/
def exNotif5 : NotifDoc :=
  { id := 5, user_id := some 1, driver_id := none, order_id := none,
    type := NotifType.order_created, title := "Order Created",
    message := "Your order has been created successfully", is_read := false }

/-- A store whose only notification (id 5) belongs to router/user 1 and is
unread. -/
def exNotifStore : Store :=
  { exBase with notifications := [exNotif5] }

/-- A second authenticated router (id 2) who owns nothing in
`exNotifStore`. -/
def exStranger : AuthUser := { id := 2, role := Role.router, fullName := "Router Two" }

/-!
## Claims
-/

/-- Claim C1: For every AcceptOffer call (either controller variant) that
returns success on an offer O of order X, the resulting state has offer O
with status Accepted, every other offer of order X with status Rejected,
and order X with status Active: success never leaves a subset of the
three-part mutation applied. -/
theorem claim1_accept_atomicity (s : Store) (c : AuthUser) (oid : Nat) (off : OfferDoc)
    (hoff : findOffer s oid = some off) :
    ((acceptOffer s c oid).1 = Res.success →
      findOffer (acceptOffer s c oid).2 oid
        = some { off with status := OfferStatus.accepted } ∧
      (∀ f ∈ (acceptOffer s c oid).2.offers,
        f.order_id = off.order_id → f.id ≠ oid → f.status = OfferStatus.rejected) ∧
      (∃ ord, findOrder (acceptOffer s c oid).2 off.order_id = some ord ∧
        ord.status = OrderStatus.active)) ∧
    ((acceptOfferLegacy s c oid).1 = Res.success →
      findOffer (acceptOfferLegacy s c oid).2 oid
        = some { off with status := OfferStatus.accepted } ∧
      (∀ f ∈ (acceptOfferLegacy s c oid).2.offers,
        f.order_id = off.order_id → f.id ≠ oid → f.status = OfferStatus.rejected) ∧
      (∃ ord, findOrder (acceptOfferLegacy s c oid).2 off.order_id = some ord ∧
        ord.status = OrderStatus.active)) := by
  constructor
  · intro hsucc
    rcases acceptOffer_success_inv s c oid hsucc with
      ⟨hrole, off', hoff', ⟨ord, hord⟩, hpend, hoffers, horders⟩
    obtain rfl : off' = off := by
      rw [hoff'] at hoff
      exact Option.some.inj hoff
    refine ⟨?_, ?_, ?_⟩
    · show (acceptOffer s c oid).2.offers.find? (fun f => f.id == oid) = _
      rw [hoffers]
      exact findOffer_after_accept s.offers oid off' hoff'
    · intro f hf
      rw [hoffers] at hf
      exact siblings_rejected_after_accept s.offers oid off'.order_id f hf
    · have hmem : ord ∈ s.orders := List.mem_of_find?_eq_some hord
      have hprop := List.find?_some hord
      have hid : ord.id = off'.order_id := by
        simp only [Bool.and_eq_true, beq_iff_eq] at hprop
        exact hprop.1
      have hsome : (s.orders.find? (fun o => o.id == off'.order_id)).isSome :=
        List.find?_isSome.mpr ⟨ord, hmem, by simp [hid]⟩
      rcases Option.isSome_iff_exists.mp hsome with ⟨ord0, hord0⟩
      refine ⟨{ ord0 with status := OrderStatus.active }, ?_, rfl⟩
      show (acceptOffer s c oid).2.orders.find? (fun o => o.id == off'.order_id) = _
      rw [horders]
      exact findOrder_after_activate s.orders off'.order_id ord0 hord0
  · intro hsucc
    rcases acceptOfferLegacy_success_inv s c oid hsucc with
      ⟨off', hoff', hordsome, hoffers, horders⟩
    obtain rfl : off' = off := by
      rw [hoff'] at hoff
      exact Option.some.inj hoff
    refine ⟨?_, ?_, ?_⟩
    · show (acceptOfferLegacy s c oid).2.offers.find? (fun f => f.id == oid) = _
      rw [hoffers]
      exact findOffer_after_accept s.offers oid off' hoff'
    · intro f hf
      rw [hoffers] at hf
      exact siblings_rejected_after_accept s.offers oid off'.order_id f hf
    · rcases Option.isSome_iff_exists.mp hordsome with ⟨ord0, hord0⟩
      refine ⟨{ ord0 with status := OrderStatus.active }, ?_, rfl⟩
      show (acceptOfferLegacy s c oid).2.orders.find? (fun o => o.id == off'.order_id) = _
      rw [horders]
      exact findOrder_after_activate s.orders off'.order_id ord0 hord0

/-- Witness for C1: accepting Pending offer 1 of `exS` succeeds, and the
accepted offer reads back as Accepted afterwards. -/
theorem claim1_accept_atomicity_witness :
    findOffer exS 1 = some exOffer1 ∧
    (acceptOffer exS exRouter 1).1 = Res.success ∧
    findOffer (acceptOffer exS exRouter 1).2 1
      = some { exOffer1 with status := OfferStatus.accepted } :=
  ⟨by decide, by decide,
    ((claim1_accept_atomicity exS exRouter 1 exOffer1 (by decide)).1 (by decide)).1⟩

/-- Claim C2: For every reachable store state and every Negotiation Engine
operation (CreateOrder, SubmitOffer, AcceptOffer, RejectOffer), the state
after the operation completes has, for every order, at most one Offer with
status Accepted.  (States after an operation from a reachable state are
exactly the non-initial reachable states, so the statement quantifies over
all reachable states.) -/
theorem claim2_at_most_one_accepted_per_order (s : Store) (h : Reachable s) :
    AtMostOneAccepted s.offers :=
  (wf_reachable s h).accepted

/-- Claim C3 counterexample:  The legacy `acceptOffer` (the variant without
the Pending check) accepts offer 1 of `exAccepted` even though its status
is Accepted, returns success instead of InvalidState, and mutates the
sibling offer 2 from Pending to Rejected — refuting the claim that every
AcceptOffer call on a non-Pending offer fails with InvalidState and leaves
offer and order statuses unmodified. -/
theorem claim3_counterexample :
    findOffer exAccepted 1 = some { exOffer1 with status := OfferStatus.accepted } ∧
    OfferStatus.accepted ≠ OfferStatus.pending ∧
    (acceptOfferLegacy exAccepted exRouter 1).1 = Res.success ∧
    findOffer (acceptOfferLegacy exAccepted exRouter 1).2 2
      = some { exOffer2 with status := OfferStatus.rejected } := by
  decide

/-- Claim C3 amended:  In the validated `acceptOffer` (the variant with the
status check), a call by a router owning the offer's order on an existing
offer whose status is not Pending fails with InvalidState and leaves the
store — every offer and order status included — completely unchanged.
(The legacy variant performs no status check at all, and a non-owner call
in the validated variant fails with NotFound rather than InvalidState; see
the counterexample.) -/
theorem claim3_amended_invalid_state (s : Store) (c : AuthUser) (oid : Nat)
    (off : OfferDoc) (ord : OrderDoc)
    (hrole : c.role = Role.router)
    (hoff : findOffer s oid = some off)
    (hord : findOrderOwned s off.order_id c.id = some ord)
    (hnp : off.status ≠ OfferStatus.pending) :
    acceptOffer s c oid = (Res.invalidState, s) := by
  unfold acceptOffer
  simp only [hrole, hoff, hord]
  simp [hnp]

/-- Witness for C3's amended claim: the validated variant rejects the
re-acceptance of the already-Accepted offer 1 with InvalidState, leaving
the store untouched. -/
theorem claim3_amended_invalid_state_witness :
    acceptOffer exAccepted exRouter 1 = (Res.invalidState, exAccepted) :=
  claim3_amended_invalid_state exAccepted exRouter 1
    { exOffer1 with status := OfferStatus.accepted }
    { exOrder10 with status := OrderStatus.active }
    (by decide) (by decide) (by decide) (by decide)

/-- Claim C4: For every driver D and order O: the first SubmitOffer inserts
an Offer with status Pending; a second SubmitOffer by the same driver for
the same order fails with Conflict while leaving the store unchanged, so
exactly one Offer row exists for the pair (O, D) afterwards.  The legacy
`createOffer` rejects the duplicate identically. -/
theorem claim4_submit_offer_unique_pair (s : Store) (d : AuthUser) (O : Nat)
    (p q : Int) (no no' : String) (ord : OrderDoc)
    (hrole : d.role = Role.driver) (hp : 0 ≤ p) (hq : 0 ≤ q)
    (hord : findOrder s O = some ord)
    (hnone : findOfferPair s O d.id = none) :
    (createOffer s d O p no).1 = Res.success ∧
    findOfferPair (createOffer s d O p no).2 O d.id
      = some { id := s.nextId, order_id := O, driver_id := d.id, price := p,
               notes := no, status := OfferStatus.pending } ∧
    offersForPair (createOffer s d O p no).2 O d.id = 1 ∧
    createOffer (createOffer s d O p no).2 d O q no'
      = (Res.conflict, (createOffer s d O p no).2) ∧
    createOfferLegacy (createOffer s d O p no).2 d O q no'
      = (Res.conflict, (createOffer s d O p no).2) := by
  rcases createOffer_success_eq s d O p no ord hrole hp hord hnone with ⟨h1, hoffers, horders⟩
  have hcount0 : s.offers.countP (fun f => f.order_id == O && f.driver_id == d.id) = 0 := by
    rw [List.countP_eq_zero]
    exact List.find?_eq_none.mp hnone
  have hpair : findOfferPair (createOffer s d O p no).2 O d.id
      = some { id := s.nextId, order_id := O, driver_id := d.id, price := p,
               notes := no, status := OfferStatus.pending } := by
    show ((createOffer s d O p no).2.offers).find? _ = _
    rw [hoffers, List.find?_append, (show s.offers.find? _ = none from hnone)]
    simp
  have hfp1 : offersForPair (createOffer s d O p no).2 O d.id = 1 := by
    show ((createOffer s d O p no).2.offers).countP _ = 1
    rw [hoffers, List.countP_append, hcount0, List.countP_singleton]
    simp
  have hordsome : (findOrder (createOffer s d O p no).2 O).isSome := by
    show (((createOffer s d O p no).2.orders).find? _).isSome
    rw [horders, (show s.orders.find? _ = some ord from hord)]
    rfl
  exact ⟨h1, hpair, hfp1,
    createOffer_conflict_eq _ d O q no' _ hrole hq hordsome hpair,
    createOfferLegacy_conflict_eq _ d O q no' _ hordsome hpair⟩

/-- Witness for C4: driver 20 submits price 100 on order 10 of `exBase`,
then price 120 — the second call conflicts and one row remains. -/
theorem claim4_submit_offer_unique_pair_witness :
    findOrder exBase 10 = some exOrder10 ∧
    findOfferPair exBase 10 20 = none ∧
    (createOffer exBase exDriverA 10 100 "").1 = Res.success ∧
    offersForPair (createOffer exBase exDriverA 10 100 "").2 10 20 = 1 ∧
    (createOffer (createOffer exBase exDriverA 10 100 "").2 exDriverA 10 120 "").1
      = Res.conflict := by
  have h := claim4_submit_offer_unique_pair exBase exDriverA 10 100 120 "" "" exOrder10
    (by decide) (by decide) (by decide) (by decide) (by decide)
  exact ⟨by decide, by decide, h.1, h.2.2.1, by rw [h.2.2.2.1]⟩

/-- Claim C5: For every successful CreateOrder with vehicle category C and
every existing driver: exactly one `new_order_available` notification is
created for the driver if their vehicle category equals C, and none if it
differs (or they have no vehicle) — assuming distinct driver ids, as Mongo
guarantees for `_id`.  The count ranges over the notifications appended by
the call. -/
theorem claim5_new_order_fanout (s : Store) (c : AuthUser) (vt : Nat)
    (fl tl : String) (vtd : VehicleDoc) (dr : DriverDoc)
    (hrole : c.role = Role.router)
    (hvt : findVehicle s vt = some vtd)
    (hdist : s.drivers.Pairwise fun a b => a.id ≠ b.id)
    (hdr : dr ∈ s.drivers) :
    (createOrder s c vt fl tl).1 = Res.success ∧
    ((createOrder s c vt fl tl).2.notifications.drop s.notifications.length).countP
        (fun n => n.type == NotifType.new_order_available && n.driver_id == some dr.id)
      = if driverMatchesCategory s vtd.category dr then 1 else 0 := by
  rcases createOrder_success_eq s c vt fl tl vtd hrole hvt with ⟨h1, hnotifs⟩
  refine ⟨h1, ?_⟩
  rw [hnotifs, List.append_assoc, List.drop_left, List.countP_append,
    List.countP_singleton]
  have hrouter0 :
      (if ((NotifData.toDoc
          { user_id := some c.id, driver_id := none, order_id := some s.nextId,
            type := NotifType.order_created, title := "Order Created",
            message := "Your order has been created successfully" } (s.nextId + 1)).type
            == NotifType.new_order_available
          && (NotifData.toDoc
          { user_id := some c.id, driver_id := none, order_id := some s.nextId,
            type := NotifType.order_created, title := "Order Created",
            message := "Your order has been created successfully" } (s.nextId + 1)).driver_id
            == some dr.id) = true then 1 else 0) = 0 := by
    simp [NotifData.toDoc]
  rw [hrouter0, Nat.zero_add,
    countP_mkNotifDocs _
      (fun d => d.type == NotifType.new_order_available && d.driver_id == some dr.id)
      (fun d i => rfl),
    List.countP_map,
    countP_ext _ _ (fun d => d.id == dr.id)
      (fun a _ => by
        by_cases h : a.id = dr.id <;>
          simp [Function.comp, newOrderAvailableData, h]),
    matchingDrivers]
  exact countP_filter_key s.drivers (driverMatchesCategory s vtd.category) dr hdist hdr

/-- Witness for C5: creating an order with vehicle type 3 (category Large)
in `exBase` produces exactly one `new_order_available` notification for
driver 20, whose vehicle category is Large. -/
theorem claim5_new_order_fanout_witness :
    (createOrder exBase exRouter 3 "A" "B").1 = Res.success ∧
    ((createOrder exBase exRouter 3 "A" "B").2.notifications.drop
        exBase.notifications.length).countP
      (fun n => n.type == NotifType.new_order_available &&
        n.driver_id == some (20 : Nat)) = 1 := by
  have h := claim5_new_order_fanout exBase exRouter 3 "A" "B"
    { id := 3, category := "Large" } { id := 20, fullName := "Driver Twenty", vehicleType := 3 }
    (by decide) (by decide) (by decide) (by decide)
  exact ⟨h.1, h.2.trans (by decide)⟩

/-- Claim C6, code defect:  `markAsRead` and `deleteNotification` read no
field of the caller: there is no ownership check.  At the concrete failing
input, router 2 marks router 1's notification 5 as read (success, mutation
applied) and deletes it (success) — where the claim requires Forbidden and
an unchanged notification.  (`markAllAsRead` is owner-scoped by
construction of its query and cannot touch notification 5.) -/
theorem claim6_ownership_not_enforced :
    exNotif5.user_id = some 1 ∧ exStranger.id = 2 ∧
    (markAsRead exNotifStore exStranger 5).1 = Res.success ∧
    findNotif (markAsRead exNotifStore exStranger 5).2 5
      = some { exNotif5 with is_read := true } ∧
    (deleteNotification exNotifStore exStranger 5).1 = Res.success ∧
    findNotif (deleteNotification exNotifStore exStranger 5).2 5 = none ∧
    findNotif (markAllAsRead exNotifStore exStranger).2 5 = some exNotif5 := by
  decide

/-- Claim C7 counterexample:  `rejectOffer` performs
`findByIdAndUpdate(id, { status: 'Rejected' })` with no status check: on
`exAccepted` it succeeds on offer 1, which is in the terminal state
Accepted, and overwrites its status with Rejected — refuting both "never
mutated after terminal state except by order deletion cascade" and
"RejectOffer leaves non-Pending offers unchanged". -/
theorem claim7_counterexample :
    findOffer exAccepted 1 = some { exOffer1 with status := OfferStatus.accepted } ∧
    (rejectOffer exAccepted exRouter 1).1 = Res.success ∧
    findOffer (rejectOffer exAccepted exRouter 1).2 1
      = some { exOffer1 with status := OfferStatus.rejected } := by
  decide

/-- Claim C7 amended:  `rejectOffer` unconditionally sets the target
offer's status to Rejected regardless of its current status — terminal
(Accepted/Rejected/Expired) offers included — and changes nothing else: no
other offer is touched and no order status is altered.  (Terminal offers
can likewise be overwritten by `updateOffer` and by the sibling
`updateMany` of AcceptOffer; the "never mutated after terminal state"
lifecycle is not enforced anywhere.) -/
theorem claim7_amended_reject_unconditional (s : Store) (c : AuthUser) (oid : Nat)
    (off : OfferDoc) (drv : DriverDoc) (ord : OrderDoc)
    (hoff : findOffer s oid = some off)
    (hdrv : findDriver s off.driver_id = some drv)
    (hord : findOrder s off.order_id = some ord) :
    (rejectOffer s c oid).1 = Res.success ∧
    findOffer (rejectOffer s c oid).2 oid = some { off with status := OfferStatus.rejected } ∧
    (rejectOffer s c oid).2.orders = s.orders ∧
    (∀ f ∈ (rejectOffer s c oid).2.offers, f.id ≠ oid → f ∈ s.offers) ∧
    (∀ f ∈ s.offers, f.id ≠ oid → f ∈ (rejectOffer s c oid).2.offers) := by
  rcases rejectOffer_success_eq s c oid off drv ord hoff hdrv hord with ⟨h1, hoffers, horders⟩
  refine ⟨h1, ?_, horders, ?_, ?_⟩
  · show ((rejectOffer s c oid).2.offers).find? _ = _
    rw [hoffers]
    exact findOffer_setOfferStatus s.offers oid OfferStatus.rejected off hoff
  · intro f hf hne
    rw [hoffers, setOfferStatus] at hf
    rcases List.mem_map.mp hf with ⟨f0, hf0, rfl⟩
    by_cases h1 : f0.id = oid
    · exact absurd (by simp [h1]) hne
    · simpa [h1] using hf0
  · intro f hf hne
    rw [hoffers, setOfferStatus]
    exact List.mem_map.mpr ⟨f, hf, by simp [hne]⟩

/-- Witness for C7's amended claim: rejecting the already-Accepted offer 1
succeeds and overwrites its terminal status. -/
theorem claim7_amended_reject_unconditional_witness :
    (rejectOffer exAccepted exRouter 1).1 = Res.success ∧
    findOffer (rejectOffer exAccepted exRouter 1).2 1
      = some { exOffer1 with status := OfferStatus.rejected } ∧
    (rejectOffer exAccepted exRouter 1).2.orders = exAccepted.orders := by
  have h := claim7_amended_reject_unconditional exAccepted exRouter 1
    { exOffer1 with status := OfferStatus.accepted }
    { id := 20, fullName := "Driver Twenty", vehicleType := 3 }
    { exOrder10 with status := OrderStatus.active }
    (by decide) (by decide) (by decide)
  exact ⟨h.1, h.2.1, h.2.2.1⟩

/-- Claim C8: A Ring from a router (role spelled `'user'` in the controller)
on an existing order with no Accepted offer fails with InvalidState and
creates no notification (the store is returned unchanged); moreover no
`sendRing` call of any caller ever writes the order or offer
collections. -/
theorem claim8_ring_no_accepted_offer (s : Store) (c : AuthUser) (oid : Nat)
    (message : String) (ord : OrderDoc)
    (hrole : c.role = Role.router)
    (hord : findOrder s oid = some ord)
    (hnoacc : findAcceptedOffer s oid = none) :
    sendRing s c oid message = (Res.invalidState, s) ∧
    ∀ (c' : AuthUser) (oid' : Nat) (m' : String),
      (sendRing s c' oid' m').2.orders = s.orders ∧
      (sendRing s c' oid' m').2.offers = s.offers := by
  constructor
  · unfold sendRing
    simp [hord, hrole, hnoacc]
  · intro c' oid' m'
    unfold sendRing
    split
    · exact ⟨rfl, rfl⟩
    · split
      · exact ⟨rfl, rfl⟩
      · split
        · exact ⟨rfl, rfl⟩
        · split
          · exact ⟨rfl, rfl⟩
          · exact ⟨rfl, rfl⟩

/-- Witness for C8: ringing order 10 of `exS` (two Pending offers, none
Accepted) as router 1 fails with InvalidState and changes nothing. -/
theorem claim8_ring_no_accepted_offer_witness :
    sendRing exS exRouter 10 "hello" = (Res.invalidState, exS) :=
  (claim8_ring_no_accepted_offer exS exRouter 10 "hello" exOrder10
    (by decide) (by decide) (by decide)).1

/-- Claim C9: `getNotifications` only ever returns, counts and
unread-counts notifications whose owner field matches the authenticated
caller: the returned page, `total` and `unreadCount` are all computed from
the owner-scoped query (role `'user'`, i.e. router → `user_id` equals the
caller's id; role `'driver'` → `driver_id` equals the caller's id). -/
theorem claim9_notifications_owner_scoped (s : Store) (c : AuthUser)
    (page limit : Nat) (unreadOnly : Bool) :
    (∀ n ∈ (getNotifications s c page limit unreadOnly).notifications,
      ownerMatches c n = true) ∧
    ((getNotifications s c page limit unreadOnly).total
        = (s.notifications.filter (notifQuery c unreadOnly)).length ∧
      ∀ n ∈ s.notifications.filter (notifQuery c unreadOnly), ownerMatches c n = true) ∧
    ((getNotifications s c page limit unreadOnly).unreadCount
        = (s.notifications.filter fun n => notifQuery c unreadOnly n && !n.is_read).length ∧
      ∀ n ∈ s.notifications.filter (fun n => notifQuery c unreadOnly n && !n.is_read),
        ownerMatches c n = true) := by
  refine ⟨?_, ⟨rfl, ?_⟩, ⟨rfl, ?_⟩⟩
  · intro n hn
    have hn' := List.mem_of_mem_drop (List.mem_of_mem_take hn)
    rw [List.mem_reverse] at hn'
    have hq := (List.mem_filter.mp hn').2
    simp only [notifQuery, Bool.and_eq_true] at hq
    exact hq.1
  · intro n hn
    have hq := (List.mem_filter.mp hn).2
    simp only [notifQuery, Bool.and_eq_true] at hq
    exact hq.1
  · intro n hn
    have hq := (List.mem_filter.mp hn).2
    simp only [notifQuery, Bool.and_eq_true] at hq
    exact hq.1.1

/-- Claim C10: `markAsRead` is idempotent: on an existing notification the
first call succeeds and leaves `is_read = true`, and a second call also
succeeds (whoever the caller is) and leaves the store exactly as the first
call left it. -/
theorem claim10_mark_read_idempotent (s : Store) (c c' : AuthUser) (i : Nat)
    (n : NotifDoc) (h : findNotif s i = some n) :
    (markAsRead s c i).1 = Res.success ∧
    findNotif (markAsRead s c i).2 i = some { n with is_read := true } ∧
    (markAsRead (markAsRead s c i).2 c' i).1 = Res.success ∧
    (markAsRead (markAsRead s c i).2 c' i).2 = (markAsRead s c i).2 := by
  have heq := markAsRead_success_eq s c i n h
  have hfind : findNotif (markAsRead s c i).2 i = some { n with is_read := true } := by
    rw [heq]
    show (s.notifications.map _).find? _ = _
    have hid : n.id = i := by simpa using List.find?_some h
    rw [find?_map_eq _ _ _ (fun a => by by_cases h1 : a.id = i <;> simp [h1]),
      (show s.notifications.find? _ = some n from h)]
    simp [hid]
  have heq2 := markAsRead_success_eq (markAsRead s c i).2 c' i
    { n with is_read := true } hfind
  refine ⟨by rw [heq], hfind, by rw [heq2], ?_⟩
  rw [heq2, heq]
  show ({ s with notifications := _ } : Store) = _
  have : ((s.notifications.map fun m =>
        if m.id == i then { m with is_read := true } else m).map fun m =>
        if m.id == i then { m with is_read := true } else m)
      = s.notifications.map fun m => if m.id == i then { m with is_read := true } else m := by
    rw [List.map_map]
    refine List.map_congr_left ?_
    intro a _
    by_cases h1 : a.id = i <;> simp [h1]
  rw [this]

/-- Witness for C10 on notification 5 of `exNotifStore`: both calls
succeed and the notification reads back as read. -/
theorem claim10_mark_read_idempotent_witness :
    findNotif exNotifStore 5 = some exNotif5 ∧
    (markAsRead exNotifStore exRouter 5).1 = Res.success ∧
    findNotif (markAsRead exNotifStore exRouter 5).2 5
      = some { exNotif5 with is_read := true } ∧
    (markAsRead (markAsRead exNotifStore exRouter 5).2 exStranger 5).1 = Res.success := by
  have h := claim10_mark_read_idempotent exNotifStore exRouter exStranger 5 exNotif5
    (by decide)
  exact ⟨by decide, h.1, h.2.1, h.2.2.1⟩

/-- Witness for C2 at a concrete input: after submitting two offers on
order 10 and accepting offer 30, the invariant holds. -/
theorem claim2_at_most_one_accepted_per_order_witness :
    AtMostOneAccepted
      ((acceptOffer (createOffer (createOffer exBase exDriverA 10 100 "").2
        exDriverB 10 90 "").2 exRouter 30).2).offers :=
  claim2_at_most_one_accepted_per_order _
    (Reachable.acceptOfferStep _ exRouter 30
      (Reachable.createOfferStep _ exDriverB 10 90 ""
        (Reachable.createOfferStep _ exDriverA 10 100 ""
          (Reachable.init exBase rfl))))

end ShamTruck
